import Mathlib

/-!
Shallow embedding of the quote-generation scripts of this repository:
`scripts/RSI-AMM.py` (RSIAMM) and `scripts/quickstart_script_2_statusmode.py`
(QuickstartScript2).  Prices, sizes and timestamps are modelled as exact
rationals; fallible venue calls are modelled by explicit outcome data; the
candle dataframe is modelled as a list of candle records.
-/

namespace Hummingbot

/-- Order side of a proposal (hummingbot TradeType restricted to the two sides
the scripts construct). -/
inductive TradeSide where
  | buy
  | sell
deriving DecidableEq

/-- Order type as used by the scripts (always LIMIT). -/
inductive OrdType where
  | limit
deriving DecidableEq

/-- hummingbot OrderCandidate as constructed by the scripts. -/
structure OrderCandidate where
  tradingPair : String
  isMaker : Bool
  orderType : OrdType
  orderSide : TradeSide
  amount : ℚ
  price : ℚ
deriving DecidableEq

/-- An externally visible venue request emitted during a tick. -/
inductive Action where
  | cancelOrder (clientOrderId : String)
  | placeOrder (order : OrderCandidate)
deriving DecidableEq

/-- Class-level configuration constants of QuickstartScript2. -/
structure QS2Config where
  tradingPair : String
  bidSpread : ℚ
  askSpread : ℚ
  orderRefreshTime : ℚ
  orderAmount : ℚ

/-- The concrete class attribute values of QuickstartScript2. -/
def qs2Defaults : QS2Config :=
  { tradingPair := "POPCAT-USDT", bidSpread := 2/100, askSpread := 2/100,
    orderRefreshTime := 15, orderAmount := 40 }

/-- Mutable strategy state of QuickstartScript2: the refresh deadline
`create_timestamp` and the band bounds `price_ceiling` / `price_floor`. -/
structure QS2State where
  createTimestamp : ℚ
  priceCeiling : ℚ
  priceFloor : ℚ
deriving DecidableEq

/-- Initial state: class attribute `create_timestamp = 0`, and `__init__` sets
`price_ceiling = Decimal("0")` and `price_floor = Decimal("0")`. -/
def initQS2State : QS2State :=
  { createTimestamp := 0, priceCeiling := 0, priceFloor := 0 }

/-- create_proposal of QuickstartScript2: two limit orders around the reference
price.  `none` models the guarded failure path (the method catches any
exception and returns the empty list). -/
def createProposalQS2 (cfg : QS2Config) (refPrice : Option ℚ) : List OrderCandidate :=
  match refPrice with
  | none => []
  | some p =>
      [{ tradingPair := cfg.tradingPair, isMaker := true, orderType := .limit,
         orderSide := .buy, amount := cfg.orderAmount, price := p * (1 - cfg.bidSpread) },
       { tradingPair := cfg.tradingPair, isMaker := true, orderType := .limit,
         orderSide := .sell, amount := cfg.orderAmount, price := p * (1 + cfg.askSpread) }]

/-- apply_price_ceiling_floor_filter of QuickstartScript2, mirroring its loop:
a SELL is appended when its price is strictly above the floor, a BUY when its
price is strictly below the ceiling; everything else is dropped. -/
def applyPriceCeilingFloorFilter (pc pf : ℚ) : List OrderCandidate → List OrderCandidate
  | [] => []
  | o :: rest =>
      if o.orderSide = TradeSide.sell ∧ o.price > pf then
        o :: applyPriceCeilingFloorFilter pc pf rest
      else if o.orderSide = TradeSide.buy ∧ o.price < pc then
        o :: applyPriceCeilingFloorFilter pc pf rest
      else
        applyPriceCeilingFloorFilter pc pf rest

/-- The keep-predicate realized by the band filter loop. -/
def bandKeep (pc pf : ℚ) (o : OrderCandidate) : Bool :=
  decide ((o.orderSide = TradeSide.sell ∧ o.price > pf) ∨
          (o.orderSide = TradeSide.buy ∧ o.price < pc))

theorem applyPCF_eq_filter (pc pf : ℚ) (ps : List OrderCandidate) :
    applyPriceCeilingFloorFilter pc pf ps = ps.filter (bandKeep pc pf) := by
  induction ps with
  | nil => rfl
  | cons o rest ih =>
      by_cases h1 : o.orderSide = TradeSide.sell ∧ o.price > pf
      · simp [applyPriceCeilingFloorFilter, bandKeep, h1, ih, List.filter_cons]
      · by_cases h2 : o.orderSide = TradeSide.buy ∧ o.price < pc
        · simp [applyPriceCeilingFloorFilter, bandKeep, h1, h2, ih, List.filter_cons]
        · simp [applyPriceCeilingFloorFilter, bandKeep, h1, h2, ih, List.filter_cons]

theorem mem_applyPCF (pc pf : ℚ) (ps : List OrderCandidate) (o : OrderCandidate) :
    o ∈ applyPriceCeilingFloorFilter pc pf ps ↔
      o ∈ ps ∧ ((o.orderSide = TradeSide.sell ∧ o.price > pf) ∨
                (o.orderSide = TradeSide.buy ∧ o.price < pc)) := by
  rw [applyPCF_eq_filter, List.mem_filter]
  simp [bandKeep]

/-- A sample BUY proposal priced at 106. -/
def buyAt106 : OrderCandidate :=
  { tradingPair := "POPCAT-USDT", isMaker := true, orderType := .limit,
    orderSide := .buy, amount := 40, price := 106 }

/-- A sample SELL proposal priced at 104. -/
def sellAt104 : OrderCandidate :=
  { tradingPair := "POPCAT-USDT", isMaker := true, orderType := .limit,
    orderSide := .sell, amount := 40, price := 104 }

/-- C4: the band filter keeps a SELL proposal iff its price is strictly greater
than the floor and keeps a BUY proposal iff its price is strictly less than the
ceiling; the output is the filtered sublist of the input, so kept proposals are
unchanged and in their original order; with ceiling 105 and floor 95 the input
[buy@106, sell@104] filters to [sell@104]. -/
theorem c4_band_filter :
    (∀ (pc pf : ℚ) (ps : List OrderCandidate),
        applyPriceCeilingFloorFilter pc pf ps = ps.filter (bandKeep pc pf))
    ∧ (∀ (pc pf : ℚ) (ps : List OrderCandidate) (o : OrderCandidate),
        o ∈ applyPriceCeilingFloorFilter pc pf ps ↔
          o ∈ ps ∧ ((o.orderSide = TradeSide.sell ∧ o.price > pf) ∨
                    (o.orderSide = TradeSide.buy ∧ o.price < pc)))
    ∧ (∀ (pc pf : ℚ) (ps : List OrderCandidate),
        (applyPriceCeilingFloorFilter pc pf ps).Sublist ps)
    ∧ applyPriceCeilingFloorFilter 105 95 [buyAt106, sellAt104] = [sellAt104] := by
  refine ⟨applyPCF_eq_filter, mem_applyPCF, ?_, by decide⟩
  intro pc pf ps
  rw [applyPCF_eq_filter]
  exact List.filter_sublist ps

/-- One OHLCV candle of the feed dataframe.  The `volume` field also stands for
the last raw column of the dataframe (the hummingbot candle frame ends in
volume-type columns), which is what `iat[-1, -1]` reads when no indicator
column was appended. -/
structure Candle where
  openPrice : ℚ
  highPrice : ℚ
  lowPrice : ℚ
  closePrice : ℚ
  volume : ℚ
deriving DecidableEq

/-- The zero candle, used only as the out-of-range default of list reads. -/
def defCandle : Candle :=
  { openPrice := 0, highPrice := 0, lowPrice := 0, closePrice := 0, volume := 0 }

/-- Configuration fields of RSIAMMConfig used by the strategy logic. -/
structure RSIAMMConfig where
  tradingPair : String
  orderAmount : ℚ
  orderRefreshTime : ℚ
  rsiHigh : ℚ
  rsiLow : ℚ
  natrPeriod : ℕ
  natrSpreadMultiplier : ℚ
  rsiSpreadChange : ℚ

/-- Modelled from the spec: the Wilder-style smoothed (exponential) average
over a fixed period used by both indicators — seeded with the simple average
of the first `period` values, then smoothed one value at a time. -/
def wilderStep (period : ℕ) (prev x : ℚ) : ℚ :=
  (prev * ((period : ℚ) - 1) + x) / (period : ℚ)

/-- Modelled from the spec: final value of the Wilder smoothed average of a
series. -/
def wilderSmooth (period : ℕ) (xs : List ℚ) : ℚ :=
  (xs.drop period).foldl (wilderStep period) ((xs.take period).sum / (period : ℚ))

/-- Modelled from the spec: true range of a candle given the previous close,
`max(high − low, |high − prev_close|, |low − prev_close|)`. -/
def trueRange (prevClose : ℚ) (c : Candle) : ℚ :=
  max (c.highPrice - c.lowPrice)
    (max (abs (c.highPrice - prevClose)) (abs (c.lowPrice - prevClose)))

/-- True ranges of the candles after the first, threading the previous close. -/
def trueRangesFrom (prevClose : ℚ) : List Candle → List ℚ
  | [] => []
  | c :: rest => trueRange prevClose c :: trueRangesFrom c.closePrice rest

/-- True-range series of a window; the first candle has no previous close and
contributes its own high − low range. -/
def trueRanges : List Candle → List ℚ
  | [] => []
  | c :: rest => (c.highPrice - c.lowPrice) :: trueRangesFrom c.closePrice rest

/-- Modelled from the spec: the normalized average true range of a window as a
percentage — the Wilder-smoothed true range divided by the latest close,
scaled by 100 as the charting library reports it. -/
def natrValue (period : ℕ) (window : List Candle) : ℚ :=
  100 * wilderSmooth period (trueRanges window) / (window.getLastD defCandle).closePrice

/-- Modelled from the spec: the volatility indicator is indeterminate (the
library returns None) when fewer than `period + 1` candles are available;
otherwise it yields the NATR percentage of the window. -/
def natrOpt (period : ℕ) (window : List Candle) : Option ℚ :=
  if window.length < period + 1 then none else some (natrValue period window)

/-- get_natr of RSIAMM: reads `natr.iloc[-1] / 100`.  When the indicator is
indeterminate the library call returned None and the attribute access raises,
modelled as an error value. -/
def getNatrM (cfg : RSIAMMConfig) (window : List Candle) : Except String ℚ :=
  match natrOpt cfg.natrPeriod window with
  | none => .error "NoneType has no iloc"
  | some v => .ok (v / 100)

/-- Consecutive differences of a series of closes. -/
def diffs : List ℚ → List ℚ
  | [] => []
  | [_] => []
  | a :: b :: rest => (b - a) :: diffs (b :: rest)

/-- Modelled from the spec: the RSI-style momentum score — Wilder-smoothed
average gain against average loss, `100 − 100/(1 + avg_gain/avg_loss)`, with a
zero average loss yielding 100. -/
def rsiValue (period : ℕ) (closes : List ℚ) : ℚ :=
  let ds := diffs closes
  let avgGain := wilderSmooth period (ds.map (fun d => max d 0))
  let avgLoss := wilderSmooth period (ds.map (fun d => max (-d) 0))
  if avgLoss = 0 then 100 else 100 - 100 / (1 + avgGain / avgLoss)

/-- Modelled from the spec: the momentum indicator is indeterminate when fewer
than `period + 1` candles are available. -/
def rsiOpt (period : ℕ) (window : List Candle) : Option ℚ :=
  if window.length < period + 1 then none
  else some (rsiValue period (window.map Candle.closePrice))

/-- get_processed_df followed by `iat[-1, -1]`: the RSI column (hardcoded
period 7) when the indicator could be appended, otherwise the last cell of the
last raw column of the unmodified dataframe. -/
def lastCellValue (window : List Candle) : ℚ :=
  match rsiOpt 7 window with
  | some r => r
  | none => (window.getLastD defCandle).volume

/-- Signal classification of get_rsi_signal from a momentum value: above the
high threshold −1, below the low threshold +1, otherwise 0. -/
def signalFromValue (rsiVal high low : ℚ) : ℤ :=
  if rsiVal > high then -1 else if rsiVal < low then 1 else 0

/-- get_rsi_signal of RSIAMM. -/
def getRsiSignal (cfg : RSIAMMConfig) (window : List Candle) : ℤ :=
  signalFromValue (lastCellValue window) cfg.rsiHigh cfg.rsiLow

/-- The mid-price adjustment of create_proposal: shift the mid price up on a
buy signal, down on a sell signal, else leave it unchanged. -/
def adjustedMidPrice (cfg : RSIAMMConfig) (midPrice natr : ℚ) (rsiSignal : ℤ) : ℚ :=
  if rsiSignal = 1 then
    midPrice * (1 + cfg.natrSpreadMultiplier * natr * cfg.rsiSpreadChange)
  else if rsiSignal = -1 then
    midPrice * (1 - cfg.natrSpreadMultiplier * natr * cfg.rsiSpreadChange)
  else
    midPrice

/-- The proposal construction of create_proposal, given the NATR fraction and
the RSI signal: a BUY at `adjusted × (1 − half_spread)` and a SELL at
`adjusted × (1 + half_spread)` with half-spread `natr_spread_multiplier × natr`
and the configured fixed order amount. -/
def createProposalCore (cfg : RSIAMMConfig) (midPrice natr : ℚ) (rsiSignal : ℤ) :
    List OrderCandidate :=
  let adj := adjustedMidPrice cfg midPrice natr rsiSignal
  [{ tradingPair := cfg.tradingPair, isMaker := true, orderType := .limit,
     orderSide := .buy, amount := cfg.orderAmount,
     price := adj * (1 - cfg.natrSpreadMultiplier * natr) },
   { tradingPair := cfg.tradingPair, isMaker := true, orderType := .limit,
     orderSide := .sell, amount := cfg.orderAmount,
     price := adj * (1 + cfg.natrSpreadMultiplier * natr) }]

/-- create_proposal of RSIAMM: first fetches the NATR (which raises when the
indicator is indeterminate), then the RSI signal, then builds the two
proposals. -/
def createProposalM (cfg : RSIAMMConfig) (window : List Candle) (midPrice : ℚ) :
    Except String (List OrderCandidate) :=
  match getNatrM cfg window with
  | .error e => .error e
  | .ok natr => .ok (createProposalCore cfg midPrice natr (getRsiSignal cfg window))

/-- Mutable state of RSIAMM relevant to scheduling: the class attribute
`create_timestamp` (initially 0). -/
structure RSIState where
  createTimestamp : ℚ
deriving DecidableEq

/-- Initial RSIAMM state: class attribute `create_timestamp = 0`. -/
def initRSIState : RSIState := { createTimestamp := 0 }

/-- External inputs of one RSIAMM tick: the clock, the feed readiness flag,
the venue mid price, the candle window and the resting order ids. -/
structure RSITickEnv where
  now : ℚ
  ready : Bool
  midPrice : ℚ
  window : List Candle
  activeOrders : List String

/-- on_tick of RSIAMM.  The method has no exception handler: when
create_proposal raises (indeterminate NATR), the cancellations already issued
stand, `create_timestamp` is never reassigned, and the exception leaves the
method — modelled by the `Option String` error component of the result. -/
def onTickRSI (cfg : RSIAMMConfig) (env : RSITickEnv) (s : RSIState) :
    RSIState × List Action × Option String :=
  if env.ready then
    if s.createTimestamp ≤ env.now then
      let cancels := env.activeOrders.map Action.cancelOrder
      match createProposalM cfg env.window env.midPrice with
      | .error e => (s, cancels, some e)
      | .ok proposal =>
          ({ createTimestamp := cfg.orderRefreshTime + env.now },
           cancels ++ proposal.map Action.placeOrder, none)
    else (s, [], none)
  else (s, [], none)

/-- Total requested notional of a proposal list. -/
def totalNotional (ps : List OrderCandidate) : ℚ :=
  (ps.map (fun o => o.price * o.amount)).sum

/-- Modelled from the spec: the hummingbot budget checker
`adjust_candidates(proposal, all_or_none=True)` — library code outside this
repository — drops the whole set when the total requested notional exceeds the
available balance, and passes the proposals through unchanged otherwise. -/
def adjustCandidatesAllOrNone (availableBalance : ℚ) (ps : List OrderCandidate) :
    List OrderCandidate :=
  if totalNotional ps ≤ availableBalance then ps else []

/-- calculate_price_ceiling_floor of QuickstartScript2: a successful Bollinger
computation installs the last row's upper and lower band; any exception is
caught and leaves the state unchanged. -/
def calculatePriceCeilingFloor (s : QS2State) (bands : Option (ℚ × ℚ)) : QS2State :=
  match bands with
  | some (upper, lower) => { s with priceCeiling := upper, priceFloor := lower }
  | none => s

/-- cancel_all_orders of QuickstartScript2: a single try/except wraps the whole
loop, so a raising cancel call is the last one attempted and the remaining
orders are skipped.  Each entry pairs a resting order id with whether its
cancel call raises. -/
def cancelAllOrdersQS2 : List (String × Bool) → List String
  | [] => []
  | (oid, raises) :: rest =>
      if raises then [oid] else oid :: cancelAllOrdersQS2 rest

/-- Pair each proposal with its submission outcome; missing outcomes default
to a non-raising call. -/
def withOutcomes : List OrderCandidate → List Bool → List (OrderCandidate × Bool)
  | [], _ => []
  | o :: rest, [] => (o, false) :: withOutcomes rest []
  | o :: rest, b :: bs => (o, b) :: withOutcomes rest bs

/-- place_orders of QuickstartScript2: place_order guards each submission in
its own try/except, so every order of the proposal is attempted no matter
which submission calls raise. -/
def placeOrdersQS2 : List (OrderCandidate × Bool) → List OrderCandidate
  | [] => []
  | (o, _raises) :: rest => o :: placeOrdersQS2 rest

/-- External inputs of one QuickstartScript2 tick: clock, readiness, per-order
cancellation outcomes, the Bollinger band result (none = the computation
raised), the reference price (none = the price lookup raised), the available
balance, whether the budget-checker call raises, and per-order submission
outcomes. -/
structure QS2TickEnv where
  now : ℚ
  ready : Bool
  activeOrders : List (String × Bool)
  bands : Option (ℚ × ℚ)
  refPrice : Option ℚ
  availableBalance : ℚ
  budgetStepRaises : Bool
  placeOutcomes : List Bool

/-- on_tick of QuickstartScript2: when the refresh deadline has passed and the
feed is ready, cancel the resting orders, recompute the band, generate, filter
and budget-adjust the proposals, place the survivors, and set
`create_timestamp = order_refresh_time + now`.  Every step catches its own
failures, so the deadline update always runs once the cycle is entered. -/
def onTickQS2 (cfg : QS2Config) (env : QS2TickEnv) (s : QS2State) :
    QS2State × List Action :=
  if s.createTimestamp ≤ env.now then
    if env.ready then
      let cancels := cancelAllOrdersQS2 env.activeOrders
      let s1 := calculatePriceCeilingFloor s env.bands
      let proposal := createProposalQS2 cfg env.refPrice
      let filtered := applyPriceCeilingFloorFilter s1.priceCeiling s1.priceFloor proposal
      let adjusted := if env.budgetStepRaises then []
                      else adjustCandidatesAllOrNone env.availableBalance filtered
      let placed := placeOrdersQS2 (withOutcomes adjusted env.placeOutcomes)
      ({ s1 with createTimestamp := cfg.orderRefreshTime + env.now },
       cancels.map Action.cancelOrder ++ placed.map Action.placeOrder)
    else (s, [])
  else (s, [])

/-- An order-filled notification event. -/
structure OrderFilledEvent where
  tradeType : TradeSide
  tradingPair : String
  amount : ℚ
  price : ℚ

/-- The notification message assembled by did_fill_order (the rounding of the
printed amount and price is presentation only and is kept exact here). -/
structure FillNotification where
  tradeType : TradeSide
  amount : ℚ
  tradingPair : String
  exchangeName : String
  price : ℚ

/-- did_fill_order of QuickstartScript2: builds and sends the notification and
touches no strategy state. -/
def didFillOrderQS2 (exchangeName : String) (s : QS2State) (e : OrderFilledEvent) :
    QS2State × FillNotification :=
  (s, { tradeType := e.tradeType, amount := e.amount, tradingPair := e.tradingPair,
        exchangeName := exchangeName, price := e.price })

/-- did_fill_order of RSIAMM: same notification-only behaviour. -/
def didFillOrderRSI (exchangeName : String) (s : RSIState) (e : OrderFilledEvent) :
    RSIState × FillNotification :=
  (s, { tradeType := e.tradeType, amount := e.amount, tradingPair := e.tradingPair,
        exchangeName := exchangeName, price := e.price })

/-- The submissions among a tick's emitted actions. -/
def placedActions (acts : List Action) : List OrderCandidate :=
  acts.filterMap (fun a => match a with
    | Action.placeOrder o => some o
    | Action.cancelOrder _ => none)

/-- Configuration used by the end-to-end pricing example: thresholds 70/30,
spread multiplier 1, skew sensitivity 1/2. -/
def exampleCfg : RSIAMMConfig :=
  { tradingPair := "BTC-USDT", orderAmount := 3/10000, orderRefreshTime := 15,
    rsiHigh := 70, rsiLow := 30, natrPeriod := 100,
    natrSpreadMultiplier := 1, rsiSpreadChange := 1/2 }

/-- Closed form of the mid-price adjustment for the three signal values. -/
theorem adjustedMid_cast (cfg : RSIAMMConfig) (m v : ℚ) (sig : ℤ)
    (h : sig = 1 ∨ sig = 0 ∨ sig = -1) :
    adjustedMidPrice cfg m v sig =
      m * (1 + (sig : ℚ) * (cfg.natrSpreadMultiplier * v * cfg.rsiSpreadChange)) := by
  rcases h with rfl | rfl | rfl
  · show m * (1 + cfg.natrSpreadMultiplier * v * cfg.rsiSpreadChange) = _
    push_cast
    ring
  · show m = _
    push_cast
    ring
  · show m * (1 - cfg.natrSpreadMultiplier * v * cfg.rsiSpreadChange) = _
    push_cast
    ring

/-- C1: for every mid price, volatility fraction, spread multiplier and skew
sensitivity, the proposals are priced by the spec formulas — buy price
`adjusted_reference × (1 − k·v)`, sell price `adjusted_reference × (1 + k·v)`
with adjusted reference `m × (1 + signal · k·v·c)` — and on the end-to-end
example (reference 100, momentum 25 < 30 so signal +1, v = 0.01, k = 1,
c = 0.5) the adjusted reference is 100.5, the buy price 99.495 and the sell
price 101.505. -/
theorem c1_quote_formulas :
    (∀ (cfg : RSIAMMConfig) (m v : ℚ) (sig : ℤ), sig = 1 ∨ sig = 0 ∨ sig = -1 →
      (createProposalCore cfg m v sig).map OrderCandidate.price =
        [m * (1 + (sig : ℚ) * (cfg.natrSpreadMultiplier * v * cfg.rsiSpreadChange)) *
           (1 - cfg.natrSpreadMultiplier * v),
         m * (1 + (sig : ℚ) * (cfg.natrSpreadMultiplier * v * cfg.rsiSpreadChange)) *
           (1 + cfg.natrSpreadMultiplier * v)])
    ∧ signalFromValue 25 70 30 = 1
    ∧ adjustedMidPrice exampleCfg 100 (1/100) 1 = 201/2
    ∧ (createProposalCore exampleCfg 100 (1/100) 1).map OrderCandidate.price =
        [99495/1000, 101505/1000] := by
  refine ⟨?_, by norm_num [signalFromValue],
    by norm_num [adjustedMidPrice, exampleCfg],
    by norm_num [createProposalCore, adjustedMidPrice, exampleCfg]⟩
  intro cfg m v sig hsig
  simp only [createProposalCore, List.map_cons, List.map_nil]
  rw [adjustedMid_cast cfg m v sig hsig]

/-- Witness for C1 at the end-to-end example input. -/
theorem c1_quote_formulas_witness :
    (createProposalCore exampleCfg 100 (1/100) 1).map OrderCandidate.price =
      [100 * (1 + ((1 : ℤ) : ℚ) *
          (exampleCfg.natrSpreadMultiplier * (1/100) * exampleCfg.rsiSpreadChange)) *
         (1 - exampleCfg.natrSpreadMultiplier * (1/100)),
       100 * (1 + ((1 : ℤ) : ℚ) *
          (exampleCfg.natrSpreadMultiplier * (1/100) * exampleCfg.rsiSpreadChange)) *
         (1 + exampleCfg.natrSpreadMultiplier * (1/100))] :=
  c1_quote_formulas.1 exampleCfg 100 (1/100) 1 (Or.inl rfl)

/-- C2: with positive mid price, volatility, spread multiplier and skew
sensitivity, and low threshold at most the high threshold, momentum strictly
below the low threshold makes the adjusted reference strictly greater than the
mid price, momentum strictly above the high threshold makes it strictly less,
and momentum inside the band leaves it equal. -/
theorem c2_skew_direction (cfg : RSIAMMConfig) (m v rsiVal : ℚ)
    (hm : 0 < m) (hv : 0 < v) (hk : 0 < cfg.natrSpreadMultiplier)
    (hc : 0 < cfg.rsiSpreadChange) (hlh : cfg.rsiLow ≤ cfg.rsiHigh) :
    (rsiVal < cfg.rsiLow →
      m < adjustedMidPrice cfg m v (signalFromValue rsiVal cfg.rsiHigh cfg.rsiLow))
    ∧ (cfg.rsiHigh < rsiVal →
      adjustedMidPrice cfg m v (signalFromValue rsiVal cfg.rsiHigh cfg.rsiLow) < m)
    ∧ (cfg.rsiLow ≤ rsiVal → rsiVal ≤ cfg.rsiHigh →
      adjustedMidPrice cfg m v (signalFromValue rsiVal cfg.rsiHigh cfg.rsiLow) = m) := by
  have hkvc : 0 < cfg.natrSpreadMultiplier * v * cfg.rsiSpreadChange :=
    mul_pos (mul_pos hk hv) hc
  have hmk : 0 < m * (cfg.natrSpreadMultiplier * v * cfg.rsiSpreadChange) :=
    mul_pos hm hkvc
  refine ⟨fun hlow => ?_, fun hhigh => ?_, fun h1 h2 => ?_⟩
  · have hnh : ¬ rsiVal > cfg.rsiHigh := not_lt.mpr ((le_of_lt hlow).trans hlh)
    have hsig : signalFromValue rsiVal cfg.rsiHigh cfg.rsiLow = 1 := by
      simp [signalFromValue, hnh, hlow]
    rw [hsig]
    simp only [adjustedMidPrice, if_pos]
    nlinarith
  · have hsig : signalFromValue rsiVal cfg.rsiHigh cfg.rsiLow = -1 := by
      simp [signalFromValue, hhigh]
    rw [hsig]
    simp only [adjustedMidPrice]
    norm_num
    nlinarith
  · have hsig : signalFromValue rsiVal cfg.rsiHigh cfg.rsiLow = 0 := by
      simp [signalFromValue, not_lt.mpr h1, not_lt.mpr h2]
    rw [hsig]
    simp [adjustedMidPrice]

/-- Witness for C2: momentum 25 below threshold 30 lifts the adjusted
reference above the mid price 100. -/
theorem c2_skew_direction_witness :
    (100 : ℚ) <
      adjustedMidPrice exampleCfg 100 (1/100)
        (signalFromValue 25 exampleCfg.rsiHigh exampleCfg.rsiLow) :=
  (c2_skew_direction exampleCfg 100 (1/100) 25 (by norm_num) (by norm_num)
    (by norm_num [exampleCfg]) (by norm_num [exampleCfg])
    (by norm_num [exampleCfg])).1 (by norm_num [exampleCfg])

/-- Configuration with skew sensitivity 3, used to refute C3 as stated. -/
def c3Cfg : RSIAMMConfig :=
  { tradingPair := "BTC-USDT", orderAmount := 3/10000, orderRefreshTime := 15,
    rsiHigh := 70, rsiLow := 30, natrPeriod := 100,
    natrSpreadMultiplier := 1, rsiSpreadChange := 3 }

/-- C3 counterexample: with reference price 100, half-spread 1/2 (inside
(0,1)) and skew sensitivity 3, the bullish signal (+1, from momentum 25)
produces a buy price of 125, which is not below the reference price 100. -/
theorem c3_counterexample :
    signalFromValue 25 c3Cfg.rsiHigh c3Cfg.rsiLow = 1
    ∧ (0 : ℚ) < c3Cfg.natrSpreadMultiplier * (1/2)
    ∧ c3Cfg.natrSpreadMultiplier * (1/2) < 1
    ∧ (createProposalCore c3Cfg 100 (1/2) 1).map OrderCandidate.price = [125, 375]
    ∧ ¬ (125 : ℚ) < 100 := by
  refine ⟨by norm_num [signalFromValue, c3Cfg], by norm_num [c3Cfg],
    by norm_num [c3Cfg],
    by norm_num [createProposalCore, adjustedMidPrice, c3Cfg], by norm_num⟩

/-- C3 amended: for every half-spread in (0,1) the two emitted prices straddle
the skew-adjusted reference price (whenever that adjusted reference is
positive): buy price strictly below it, sell price strictly above it.  The
straddle of the raw reference claimed by C3 fails for large skew
sensitivities. -/
theorem c3_amended (cfg : RSIAMMConfig) (m v : ℚ) (sig : ℤ)
    (hadj : 0 < adjustedMidPrice cfg m v sig)
    (hs0 : 0 < cfg.natrSpreadMultiplier * v)
    (_hs1 : cfg.natrSpreadMultiplier * v < 1) :
    (createProposalCore cfg m v sig).map OrderCandidate.price =
      [adjustedMidPrice cfg m v sig * (1 - cfg.natrSpreadMultiplier * v),
       adjustedMidPrice cfg m v sig * (1 + cfg.natrSpreadMultiplier * v)]
    ∧ adjustedMidPrice cfg m v sig * (1 - cfg.natrSpreadMultiplier * v) <
        adjustedMidPrice cfg m v sig
    ∧ adjustedMidPrice cfg m v sig <
        adjustedMidPrice cfg m v sig * (1 + cfg.natrSpreadMultiplier * v) := by
  refine ⟨by simp [createProposalCore], ?_, ?_⟩ <;> nlinarith

/-- Witness for the amended C3 at the counterexample configuration. -/
theorem c3_amended_witness :
    adjustedMidPrice c3Cfg 100 (1/2) 1 * (1 - c3Cfg.natrSpreadMultiplier * (1/2)) <
      adjustedMidPrice c3Cfg 100 (1/2) 1 :=
  (c3_amended c3Cfg 100 (1/2) 1 (by norm_num [adjustedMidPrice, c3Cfg])
    (by norm_num [c3Cfg]) (by norm_num [c3Cfg])).2.1

/-- A sample candle. -/
def candleA : Candle :=
  { openPrice := 100, highPrice := 101, lowPrice := 99, closePrice := 100, volume := 5 }

/-- A second sample candle. -/
def candleB : Candle :=
  { openPrice := 100, highPrice := 102, lowPrice := 100, closePrice := 101, volume := 6 }

/-- Configuration with NATR period 7 (and unit spread parameters), for the
short-window scenario. -/
def c6Cfg : RSIAMMConfig :=
  { tradingPair := "BTC-USDT", orderAmount := 1, orderRefreshTime := 15,
    rsiHigh := 70, rsiLow := 30, natrPeriod := 7,
    natrSpreadMultiplier := 1, rsiSpreadChange := 1 }

/-- C6 counterexample: on a two-candle window with period 7 the quote
generator raises instead of degrading to neutral quoting — get_natr hits the
indeterminate (None) indicator and create_proposal produces an error, not a
proposal list. -/
theorem c6_counterexample :
    ([candleA, candleB] : List Candle).length = 2
    ∧ 2 < c6Cfg.natrPeriod + 1
    ∧ createProposalM c6Cfg [candleA, candleB] 100 = .error "NoneType has no iloc" := by
  refine ⟨rfl, by norm_num [c6Cfg], ?_⟩
  norm_num [createProposalM, getNatrM, natrOpt, c6Cfg]

/-- C6 amended: for every candle window with fewer than natr_period + 1
candles, create_proposal fails — the NATR lookup receives an indeterminate
(None) indicator, the `.iloc` access raises, and no proposals are produced for
the cycle; there is no neutral-signal / default-half-spread fallback. -/
theorem c6_amended (cfg : RSIAMMConfig) (window : List Candle) (midPrice : ℚ)
    (h : window.length < cfg.natrPeriod + 1) :
    createProposalM cfg window midPrice = .error "NoneType has no iloc" := by
  simp [createProposalM, getNatrM, natrOpt, h]

/-- Witness for the amended C6 on the two-candle window. -/
theorem c6_amended_witness :
    ([candleA, candleB] : List Candle).length < c6Cfg.natrPeriod + 1
    ∧ createProposalM c6Cfg [candleA, candleB] 100 = .error "NoneType has no iloc" :=
  ⟨by norm_num [c6Cfg],
   c6_amended c6Cfg [candleA, candleB] 100 (by norm_num [c6Cfg])⟩

/-- Tick environment in which RSIAMM enters the refresh cycle with a
too-short candle window. -/
def c5Env : RSITickEnv :=
  { now := 1000, ready := true, midPrice := 100,
    window := [candleA, candleB], activeOrders := ["x1"] }

/-- C5 counterexample: an RSIAMM tick that enters the refresh cycle (the feed
is ready and the deadline has passed — the cancellation is issued) but whose
create_proposal step fails leaves `create_timestamp` at its old value instead
of `now + refresh_interval`. -/
theorem c5_counterexample :
    c5Env.ready = true
    ∧ initRSIState.createTimestamp ≤ c5Env.now
    ∧ (onTickRSI c6Cfg c5Env initRSIState).2.1 = [Action.cancelOrder "x1"]
    ∧ (onTickRSI c6Cfg c5Env initRSIState).1.createTimestamp =
        initRSIState.createTimestamp
    ∧ initRSIState.createTimestamp ≠ c6Cfg.orderRefreshTime + c5Env.now := by
  refine ⟨rfl, by norm_num [initRSIState, c5Env], ?_, ?_, ?_⟩ <;>
    norm_num [onTickRSI, createProposalM, getNatrM, natrOpt,
      c6Cfg, c5Env, initRSIState]

/-- C5 amended: a tick strictly before the refresh deadline is a no-op and a
tick with the feed not ready leaves the state unchanged, in both scripts; in
QuickstartScript2 — whose steps each catch their own failures — any tick that
enters the refresh cycle sets the deadline to `now + refresh_interval`
regardless of step outcomes; in RSIAMM the deadline is so updated only when
create_proposal did not raise (no error escaped the tick). -/
theorem c5_amended (qcfg : QS2Config) (qenv : QS2TickEnv) (qs : QS2State)
    (rcfg : RSIAMMConfig) (renv : RSITickEnv) (rs : RSIState) :
    (qenv.now < qs.createTimestamp → onTickQS2 qcfg qenv qs = (qs, []))
    ∧ (qenv.ready = false → onTickQS2 qcfg qenv qs = (qs, []))
    ∧ (qs.createTimestamp ≤ qenv.now → qenv.ready = true →
        (onTickQS2 qcfg qenv qs).1.createTimestamp =
          qcfg.orderRefreshTime + qenv.now)
    ∧ (renv.now < rs.createTimestamp → onTickRSI rcfg renv rs = (rs, [], none))
    ∧ (renv.ready = false → onTickRSI rcfg renv rs = (rs, [], none))
    ∧ (rs.createTimestamp ≤ renv.now → renv.ready = true →
        (onTickRSI rcfg renv rs).2.2 = none →
        (onTickRSI rcfg renv rs).1.createTimestamp =
          rcfg.orderRefreshTime + renv.now) := by
  refine ⟨fun h => ?_, fun h => ?_, fun h1 h2 => ?_,
    fun h => ?_, fun h => ?_, fun h1 h2 h3 => ?_⟩
  · simp [onTickQS2, not_le.mpr h]
  · simp [onTickQS2, h]
  · simp [onTickQS2, h1, h2]
  · simp [onTickRSI, not_le.mpr h]
  · simp [onTickRSI, h]
  · cases hM : createProposalM rcfg renv.window renv.midPrice with
    | error e => simp [onTickRSI, h1, h2, hM] at h3
    | ok props => simp [onTickRSI, h1, h2, hM]

/-- QuickstartScript2 tick environment whose cycle runs to completion. -/
def c5WEnvQ : QS2TickEnv :=
  { now := 50, ready := true, activeOrders := [("a", false)],
    bands := some (110, 90), refPrice := some 100, availableBalance := 10000,
    budgetStepRaises := false, placeOutcomes := [] }

/-- RSIAMM configuration with NATR period 1, so a two-candle window is long
enough for the indicator. -/
def c5WCfgR : RSIAMMConfig :=
  { tradingPair := "BTC-USDT", orderAmount := 1, orderRefreshTime := 15,
    rsiHigh := 70, rsiLow := 30, natrPeriod := 1,
    natrSpreadMultiplier := 1, rsiSpreadChange := 1 }

/-- RSIAMM tick environment whose cycle succeeds. -/
def c5WEnvR : RSITickEnv :=
  { now := 50, ready := true, midPrice := 100,
    window := [candleA, candleB], activeOrders := ["x"] }

/-- Witness for the amended C5: an entered QuickstartScript2 cycle and a
successful RSIAMM cycle both set the deadline to now + refresh interval. -/
theorem c5_amended_witness :
    (onTickQS2 qs2Defaults c5WEnvQ initQS2State).1.createTimestamp =
      qs2Defaults.orderRefreshTime + c5WEnvQ.now
    ∧ (onTickRSI c5WCfgR c5WEnvR initRSIState).1.createTimestamp =
      c5WCfgR.orderRefreshTime + c5WEnvR.now :=
  ⟨(c5_amended qs2Defaults c5WEnvQ initQS2State c5WCfgR c5WEnvR initRSIState).2.2.1
      (by norm_num [initQS2State, c5WEnvQ]) rfl,
   (c5_amended qs2Defaults c5WEnvQ initQS2State c5WCfgR c5WEnvR initRSIState).2.2.2.2.2
      (by norm_num [initRSIState, c5WEnvR]) rfl
      (by norm_num [onTickRSI, createProposalM, getNatrM, natrOpt,
        c5WCfgR, c5WEnvR, initRSIState])⟩

/-- C7 counterexample: in cancel_all_orders a raising first cancel prevents
the second resting order from being cancelled in the same cycle. -/
theorem c7_counterexample :
    cancelAllOrdersQS2 [("order-1", true), ("order-2", false)] = ["order-1"]
    ∧ "order-2" ∉ cancelAllOrdersQS2 [("order-1", true), ("order-2", false)] := by
  constructor <;> simp [cancelAllOrdersQS2]

theorem placeOrdersQS2_attempts_all (ps : List OrderCandidate) (outs : List Bool) :
    placeOrdersQS2 (withOutcomes ps outs) = ps := by
  induction ps generalizing outs with
  | nil => cases outs <;> rfl
  | cons o rest ih =>
      cases outs with
      | nil => simp [withOutcomes, placeOrdersQS2, ih]
      | cons b bs => simp [withOutcomes, placeOrdersQS2, ih]

theorem placedActions_placeOnly (ps : List OrderCandidate) :
    placedActions (ps.map Action.placeOrder) = ps := by
  induction ps with
  | nil => rfl
  | cons p rest ih => simpa [placedActions, List.filterMap_cons] using ih

theorem placedActions_append (ids : List String) (ps : List OrderCandidate) :
    placedActions (ids.map Action.cancelOrder ++ ps.map Action.placeOrder) = ps := by
  induction ids with
  | nil => simpa using placedActions_placeOnly ps
  | cons i rest ih => simpa [placedActions, List.filterMap_cons] using ih

/-- C7 amended: every submission of a cycle is attempted no matter which
submission calls fail (place_order guards each one), and cancellation
outcomes have no effect on the cycle's resulting state or on which orders are
submitted; but a raising cancellation does skip the remaining cancellations
of that cycle, as the counterexample shows. -/
theorem c7_amended :
    (∀ (ps : List OrderCandidate) (outs : List Bool),
        placeOrdersQS2 (withOutcomes ps outs) = ps)
    ∧ (∀ (cfg : QS2Config) (env : QS2TickEnv) (s : QS2State)
        (xs : List (String × Bool)),
        (onTickQS2 cfg { env with activeOrders := xs } s).1 =
          (onTickQS2 cfg env s).1
        ∧ placedActions (onTickQS2 cfg { env with activeOrders := xs } s).2 =
            placedActions (onTickQS2 cfg env s).2) := by
  refine ⟨placeOrdersQS2_attempts_all, ?_⟩
  intro cfg env s xs
  by_cases h1 : s.createTimestamp ≤ env.now
  · by_cases h2 : env.ready
    · constructor <;> simp [onTickQS2, h1, h2, placedActions_append]
    · constructor <;> simp [onTickQS2, h1, h2]
  · constructor <;> simp [onTickQS2, h1]

/-- C8: the budget adjuster in all-or-none mode returns the empty sequence
when the total requested notional exceeds the available balance, and the
input sequence unchanged otherwise. -/
theorem c8_all_or_none (b : ℚ) (ps : List OrderCandidate) :
    (b < totalNotional ps → adjustCandidatesAllOrNone b ps = [])
    ∧ (totalNotional ps ≤ b → adjustCandidatesAllOrNone b ps = ps) := by
  constructor
  · intro h
    simp [adjustCandidatesAllOrNone, not_le.mpr h]
  · intro h
    simp [adjustCandidatesAllOrNone, h]

/-- Witness for C8: a 4240-notional proposal is dropped under balance 1 and
passes under balance 5000. -/
theorem c8_all_or_none_witness :
    adjustCandidatesAllOrNone 1 [buyAt106] = []
    ∧ adjustCandidatesAllOrNone 5000 [buyAt106] = [buyAt106] :=
  ⟨(c8_all_or_none 1 [buyAt106]).1 (by norm_num [totalNotional, buyAt106]),
   (c8_all_or_none 5000 [buyAt106]).2 (by norm_num [totalNotional, buyAt106])⟩

/-- C9: the order-filled notification hooks of both scripts leave the whole
strategy state unchanged — refresh deadline, price ceiling and price floor
keep their values. -/
theorem c9_fill_hook_frame (ex : String) (qs : QS2State) (rs : RSIState)
    (e : OrderFilledEvent) :
    (didFillOrderQS2 ex qs e).1 = qs
    ∧ (didFillOrderQS2 ex qs e).1.createTimestamp = qs.createTimestamp
    ∧ (didFillOrderQS2 ex qs e).1.priceCeiling = qs.priceCeiling
    ∧ (didFillOrderQS2 ex qs e).1.priceFloor = qs.priceFloor
    ∧ (didFillOrderRSI ex rs e).1 = rs :=
  ⟨rfl, rfl, rfl, rfl, rfl⟩

/-- C10: price_ceiling and price_floor start at 0, a failed band computation
leaves them unchanged, and at the initial band every BUY proposal with
positive price is dropped while every SELL proposal with positive price is
kept. -/
theorem c10_initial_band (ps : List OrderCandidate) (o : OrderCandidate) :
    initQS2State.priceCeiling = 0
    ∧ initQS2State.priceFloor = 0
    ∧ (∀ s : QS2State, calculatePriceCeilingFloor s none = s)
    ∧ (o ∈ ps → 0 < o.price → o.orderSide = TradeSide.buy →
        o ∉ applyPriceCeilingFloorFilter initQS2State.priceCeiling
              initQS2State.priceFloor ps)
    ∧ (o ∈ ps → 0 < o.price → o.orderSide = TradeSide.sell →
        o ∈ applyPriceCeilingFloorFilter initQS2State.priceCeiling
              initQS2State.priceFloor ps) := by
  refine ⟨rfl, rfl, fun s => rfl, ?_, ?_⟩
  · intro _hmem hpos hside hcontra
    rw [mem_applyPCF] at hcontra
    rcases hcontra.2 with ⟨hs, _⟩ | ⟨_, hlt⟩
    · simp [hside] at hs
    · have hc : initQS2State.priceCeiling = 0 := rfl
      rw [hc] at hlt
      linarith
  · intro hmem hpos hside
    rw [mem_applyPCF]
    refine ⟨hmem, Or.inl ⟨hside, ?_⟩⟩
    show o.price > initQS2State.priceFloor
    have hf : initQS2State.priceFloor = 0 := rfl
    rw [hf]
    exact hpos

/-- Witness for C10: at the initial band, the positive-priced BUY is dropped
and the positive-priced SELL is kept. -/
theorem c10_initial_band_witness :
    buyAt106 ∉ applyPriceCeilingFloorFilter initQS2State.priceCeiling
      initQS2State.priceFloor [buyAt106, sellAt104]
    ∧ sellAt104 ∈ applyPriceCeilingFloorFilter initQS2State.priceCeiling
      initQS2State.priceFloor [buyAt106, sellAt104] :=
  ⟨(c10_initial_band [buyAt106, sellAt104] buyAt106).2.2.2.1
      (by simp) (by norm_num [buyAt106]) rfl,
   (c10_initial_band [buyAt106, sellAt104] sellAt104).2.2.2.2
      (by simp) (by norm_num [sellAt104]) rfl⟩

end Hummingbot
